import Mathlib

/-!
# Verification of the DataForge cost-governed API access layer

Shallow embedding of the core of the DataForge repository: the token-bucket
rate limiter (`dataforge/api/rate_limiter.py`), the cost ledger
(`dataforge/api/cost_tracker.py`), the retry helper
(`dataforge/api/retry_handler.py`), the on-disk response cache
(`dataforge/storage/api_cache.py`) and the two API clients
(`dataforge/api/tavily_client.py`, `dataforge/api/openai_client.py`).

Modelling conventions:
* Python floats are modelled as exact rationals (`ℚ`); monotonic clock reads
  are modelled by the nonnegative elapsed time between two reads.
* `async` code is modelled by explicit state passing; each lemma about a
  stateful component quantifies over the sequence of operations applied to it.
* External collaborators (the `httpx` transport, the `json` codec, the
  `hashlib` digest, CPython's salted `hash`) are parameters of the embedding:
  a client run takes the transport's behaviour, a serializer/deserializer
  pair and the digest function as inputs.
* Each client run records the externally visible effects (rate-limiter
  debits, cache reads/writes, network calls, ledger commits) as an event
  trace, in the order the source performs them, together with the final
  cache and ledger states and the returned value or raised error.
-/

set_option autoImplicit false

namespace DataForge

/-! ## Token bucket rate limiter (`dataforge/api/rate_limiter.py`)

`TokenBucketRateLimiter.__init__` clamps the rate to at least 1 per minute and
defaults the capacity (`burst`) to the clamped rate; `_refill` adds
`elapsed * rate_per_minute / 60` tokens, capped at `capacity`; `acquire` loops:
refill, and if at least the requested amount is available debit it and return,
otherwise sleep exactly `shortfall / (rate_per_minute / 60)` seconds and retry.
-/

/-- `max(1, rate_per_minute)` from `TokenBucketRateLimiter.__init__`. -/
def clampRate (rate_per_minute : ℤ) : ℤ := max 1 rate_per_minute

/-- `burst if burst is not None else self.rate_per_minute` from `__init__`. -/
def bucketCapacity (rate_per_minute : ℤ) (burst : Option ℤ) : ℤ :=
  burst.getD (clampRate rate_per_minute)

/-- `TokenBucketRateLimiter._refill`: `tokens = min(capacity, tokens + elapsed * rate/60)`,
with `elapsed` the monotonic time since the last refill. -/
def refill (capacity rate_per_minute tokens elapsed : ℚ) : ℚ :=
  min capacity (tokens + elapsed * (rate_per_minute / 60))

/-- One iteration of the `acquire` loop body: refill with the elapsed time
since the previous refill, then debit the requested amount if available.
(When the debit is not possible the source task sleeps and iterates again;
the iteration leaves the refilled token count behind either way.) -/
def acquireStep (capacity rate_per_minute tokens elapsed request : ℚ) : ℚ :=
  let t := refill capacity rate_per_minute tokens elapsed
  if request ≤ t then t - request else t

/-- The token count after a sequence of `acquire`-loop iterations, each given
as `(elapsed, request)`. A full `acquire` call is one or more such
iterations, so any interleaving of `acquire` calls and elapses of time is a
sequence of `acquireStep`s. -/
def runAcquires (capacity rate_per_minute : ℚ) (tokens : ℚ)
    (steps : List (ℚ × ℚ)) : ℚ :=
  steps.foldl (fun t s => acquireStep capacity rate_per_minute t s.1 s.2) tokens

/-- The full `acquire` loop, fuel-indexed: each list element is the monotonic
time elapsed just before that iteration's refill. Returns the token count
left after a successful debit, or `none` if the supplied iterations are
exhausted without the availability check ever succeeding. -/
def acquireRun (capacity rate_per_minute request : ℚ) :
    List ℚ → ℚ → Option ℚ
  | [], _ => none
  | e :: es, tokens =>
    let t := refill capacity rate_per_minute tokens e
    if request ≤ t then some (t - request)
    else acquireRun capacity rate_per_minute request es t

/-- The sleep the source computes before retrying:
`needed / rate_per_sec` where `needed = tokens_requested - self.tokens`. -/
def acquireSleep (rate_per_minute tokens request : ℚ) : ℚ :=
  (request - tokens) / (rate_per_minute / 60)

/-! ## Cost ledger (`dataforge/api/cost_tracker.py`) -/

/-- The `CostBreakdown` dataclass. -/
structure CostBreakdown where
  tavily_usd : ℚ
  openai_usd : ℚ
  deriving DecidableEq

/-- `CostBreakdown.total`. -/
def CostBreakdown.total (c : CostBreakdown) : ℚ := c.tavily_usd + c.openai_usd

/-- `CostTracker.__init__` starts from a zero breakdown. -/
def CostBreakdown.init : CostBreakdown := ⟨0, 0⟩

/-- `CostTracker.add_cost`: adds to the matching service's total and is a
silent no-op for any other service name. -/
def add_cost (c : CostBreakdown) (service : String) (amount_usd : ℚ) :
    CostBreakdown :=
  if service = "tavily" then { c with tavily_usd := c.tavily_usd + amount_usd }
  else if service = "openai" then { c with openai_usd := c.openai_usd + amount_usd }
  else c

/-- `CostTracker.within_budget`: `(totals.total + extra_cost_usd) <= self._daily_budget`. -/
def within_budget (c : CostBreakdown) (daily_budget extra_cost_usd : ℚ) : Bool :=
  c.total + extra_cost_usd ≤ daily_budget

/-- The operations of the `CostTracker` API (each is individually atomic in
the source; `get_totals` and `within_budget` only read). -/
inductive CostOp where
  | add (service : String) (amount_usd : ℚ)
  | getTotals
  | checkBudget (extra_cost_usd : ℚ)
  deriving DecidableEq

/-- State transition of one `CostTracker` operation: only `add_cost` mutates. -/
def CostOp.apply (c : CostBreakdown) : CostOp → CostBreakdown
  | .add s a => add_cost c s a
  | .getTotals => c
  | .checkBudget _ => c

/-- The ledger state after a sequence of `CostTracker` operations. -/
def runCostOps (c : CostBreakdown) (ops : List CostOp) : CostBreakdown :=
  ops.foldl CostOp.apply c

/-- The sum of the amounts of the operations that commit to a recognized
service (`"tavily"` or `"openai"`), as the spec's additivity property names it. -/
def recognizedSum : List CostOp → ℚ
  | [] => 0
  | CostOp.add s a :: ops =>
    (if s = "tavily" ∨ s = "openai" then a else 0) + recognizedSum ops
  | CostOp.getTotals :: ops => recognizedSum ops
  | CostOp.checkBudget _ :: ops => recognizedSum ops

/-- The USD amount an operation would commit (`0` for the read-only ones). -/
def CostOp.amount : CostOp → ℚ
  | .add _ a => a
  | .getTotals => 0
  | .checkBudget _ => 0

/-! ## Retry helper (`dataforge/api/retry_handler.py`)

`with_retries` drives `tenacity.AsyncRetrying(reraise=True,
stop=stop_after_attempt(attempts), retry=retry_if_exception_type(retry_on))`:
the operation is invoked up to `attempts` times (the first invocation
included); an error whose kind is not retryable propagates at once; a
retryable error propagates verbatim once the attempt budget is exhausted.
The backoff waits do not affect the value computed and are not modelled.

The operation is a function of the 0-based invocation index, so that a
distinct outcome per invocation can be expressed; the result is paired with
the number of invocations performed. -/

def retryLoop {ε α : Type} (op : ℕ → Except ε α) (retry_on : ε → Bool)
    (i : ℕ) : ℕ → Option (Except ε α × ℕ)
  | 0 => none
  | remaining + 1 =>
    match op i with
    | .ok a => some (.ok a, i + 1)
    | .error e =>
      if retry_on e then
        match remaining with
        | 0 => some (.error e, i + 1)
        | _ + 1 => retryLoop op retry_on (i + 1) remaining
      else some (.error e, i + 1)

/-- `with_retries(func, attempts=n, retry_on=...)`, returning the surfaced
result together with the number of invocations of `func`. `none` only for
`attempts = 0`, which `tenacity` does not reach. -/
def with_retries {ε α : Type} (op : ℕ → Except ε α) (attempts : ℕ)
    (retry_on : ε → Bool) : Option (Except ε α × ℕ) :=
  retryLoop op retry_on 0 attempts

/-! ## Salted string hashing and cache-key construction

`OpenAIClient.analyze_text` builds its cache key with CPython's built-in
`hash(text)`. Since Python 3.3 the `str` hash is SipHash keyed by a random
per-process secret (`PYTHONHASHSEED`), so its value is a function of both the
process's hash seed and the text. Only that dependence matters for the
claims; the concrete mixing below is a stand-in for SipHash. Both key
builders receive the process seed so that key construction can be compared
across two distinct runs of the process; the Tavily key builder ignores it
because `TavilyClient.search` uses no `hash()` in its f-string. -/

def pyHash (seed : ℕ) (s : String) : ℕ :=
  s.data.foldl (fun a c => (a * 1000003 + c.toNat) % (2 ^ 61 - 1)) (seed % (2 ^ 61 - 1))

/-- Python's `x or default` on an optional int argument: `None` and `0` are
falsy and select the default. Used for `max_results or settings...max_results`. -/
def pyOrNat (x : Option ℕ) (default : ℕ) : ℕ :=
  match x with
  | none => default
  | some n => if n = 0 then default else n

/-- Python's `x or default` on an optional list argument: `None` and `[]` are
falsy and select the default. -/
def pyOrList (x : Option (List String)) (default : List String) : List String :=
  match x with
  | none => default
  | some l => if l = [] then default else l

/-- `TavilyClient.search` line 37:
`f"q=\x7bquery\x7d|max=\x7bmax_results or settings.api.tavily.max_results\x7d|inc=\x7b','.join(include_domains or [])\x7d|exc=\x7b','.join(exclude_domains or [])\x7d"`. -/
def tavily_cache_key (_hashSeed : ℕ) (query : String) (max_results : Option ℕ)
    (settings_max_results : ℕ) (include_domains exclude_domains : Option (List String)) :
    String :=
  "q=" ++ query ++ "|max=" ++ toString (pyOrNat max_results settings_max_results) ++
    "|inc=" ++ String.intercalate "," (pyOrList include_domains []) ++
    "|exc=" ++ String.intercalate "," (pyOrList exclude_domains [])

/-- `OpenAIClient.analyze_text` line 38:
`f"model=\x7bself._model\x7d|temp=\x7bself._temperature\x7d|max=\x7bself._max_tokens\x7d|text_hash=\x7bhash(text)\x7d"`.
(The numeric rendering of the temperature is abstracted by `toString : ℚ → String`.) -/
def openai_cache_key (hashSeed : ℕ) (model : String) (temperature : ℚ)
    (max_tokens : ℕ) (text : String) : String :=
  "model=" ++ model ++ "|temp=" ++ toString temperature ++
    "|max=" ++ toString max_tokens ++ "|text_hash=" ++ toString (pyHash hashSeed text)

/-! ## On-disk response cache (`dataforge/storage/api_cache.py`)

The filesystem is modelled as an association list from paths to file
contents, newest entry first (a write shadows an older entry for the same
path). The `hashlib.sha256(...).hexdigest()` digest and the `json`
serializer/deserializer are external collaborators, passed as parameters:
`dumps` returns `none` when the payload is not JSON-serializable (the source
catches that and swallows the write), and `loads` returns `none` on any
parse failure (the source catches it and treats the entry as a miss). -/

abbrev FileSystem := List (String × String)

/-- Read the current contents at a path, if any file exists there. -/
def fsRead : FileSystem → String → Option String
  | [], _ => none
  | (p, c) :: fs, path => if p = path then some c else fsRead fs path

/-- `write_text`: create or overwrite the file at a path. -/
def fsWrite (fs : FileSystem) (path contents : String) : FileSystem :=
  (path, contents) :: fs

namespace APICache

/-- `APICache._key_to_path`: `self._dir / namespace / f"\x7bdigest\x7d.json"`
with `digest = sha256(key.encode()).hexdigest()`. -/
def key_to_path (digest : String → String) (base_dir namespace' key : String) :
    String :=
  base_dir ++ "/" ++ namespace' ++ "/" ++ digest key ++ ".json"

/-- `APICache.get`: return `None` when the file does not exist, otherwise read
it and deserialize; any read/parse failure is absorbed and reported as a miss. -/
def get {α : Type} (digest : String → String) (loads : String → Option α)
    (fs : FileSystem) (base_dir namespace' key : String) : Option α :=
  match fsRead fs (key_to_path digest base_dir namespace' key) with
  | none => none
  | some data => loads data

/-- `APICache.set`: serialize and write; a serialization/write failure is
logged and swallowed, leaving the filesystem unchanged. -/
def set {α : Type} (digest : String → String) (dumps : α → Option String)
    (fs : FileSystem) (base_dir namespace' key : String) (value : α) :
    FileSystem :=
  match dumps value with
  | some contents => fsWrite fs (key_to_path digest base_dir namespace' key) contents
  | none => fs

end APICache

/-- The cache directory both clients use: `APICache()` defaults to
`.dataforge_cache`. -/
def cacheBaseDir : String := ".dataforge_cache"

/-! ## Shared client vocabulary -/

/-- Transport-level outcomes of one `httpx` POST, as the clients distinguish
them: `httpx.RequestError` (network failure, carries a message) and
`httpx.HTTPStatusError` (non-2xx status) raised by `raise_for_status()`. -/
inductive HttpError where
  | requestError (msg : String)
  | statusError (status_code : ℕ)
  deriving DecidableEq

/-- The errors a client request can surface, from `dataforge/exceptions.py`
plus a raw transport error escaping unwrapped. -/
inductive DFError where
  | tavilyAPIError (msg : String)
  | openaiAPIError (msg : String)
  | costLimitExceeded (msg : String)
  | rawHttpError (e : HttpError)
  deriving DecidableEq

/-- Externally visible effects of a client request, in source order. An
`acquire` event stands for rate-limiter admission: the call suspends until a
token is available and then debits it, so its presence in a trace is
exactly a debit of the limiter. -/
inductive ApiEvent where
  | rateAcquire
  | cacheGet (namespace' key : String)
  | networkCall
  | cacheSet (namespace' key : String)
  | ledgerAdd (service : String) (amount_usd : ℚ)
  deriving DecidableEq

/-- Python's argumentless `str.strip()`: remove leading and trailing
whitespace. Implemented over the character list so that it evaluates by
kernel reduction (`String.trim` is defined by well-founded recursion on byte
positions and does not). -/
def pyStrip (s : String) : String :=
  ⟨((s.data.dropWhile Char.isWhitespace).reverse.dropWhile Char.isWhitespace).reverse⟩

/-! ## Tavily search client (`dataforge/api/tavily_client.py`) -/

/-- `SourceDocument` (`dataforge/types.py`) as populated by `TavilyClient.search`. -/
structure SourceDocument where
  url : String
  title : Option String
  content : Option String
  published_at : Option String
  source_score : Option ℚ
  deriving DecidableEq

/-- One element of the provider response's `results` list; `item.get(...)`
yields `None` for absent fields. -/
structure TavilyItem where
  url : Option String
  title : Option String
  content : Option String
  published_date : Option String
  score : Option ℚ
  deriving DecidableEq

/-- The per-item conversion in the response loop of `TavilyClient.search`
(`item.get("url", "")` defaults the url to the empty string). -/
def itemToDocument (item : TavilyItem) : SourceDocument :=
  { url := item.url.getD ""
    title := item.title
    content := item.content
    published_at := item.published_date
    source_score := item.score }

/-- `TavilySearchResult` (`dataforge/types.py`). -/
structure TavilySearchResult where
  query : String
  documents : List SourceDocument
  total_results : ℕ
  deriving DecidableEq

/-- The request payload `TavilyClient.search` posts (the api key is carried in
the payload in the source; domain lists are included only when non-empty). -/
structure TavilyPayload where
  api_key : String
  query : String
  max_results : ℕ
  search_depth : String
  include_domains : Option (List String)
  exclude_domains : Option (List String)
  deriving DecidableEq

/-- The settings `TavilyClient.search` consumes (`settings.api.tavily.*`). -/
structure TavilySettings where
  max_results : ℕ
  search_depth : String
  include_domains : List String
  exclude_domains : List String
  deriving DecidableEq

/-- The environment of one `TavilyClient.search` call: client configuration,
process hash seed, the external collaborators (digest, json codec and
transport behaviour), and the shared mutable state (cache filesystem, cost
ledger and its budget). The transport is the response the single
`self._client.post` would produce for a given payload. -/
structure TavilyEnv where
  settings : TavilySettings
  api_key : String
  hashSeed : ℕ
  digest : String → String
  dumpsDocs : List SourceDocument → Option String
  loadsDocs : String → Option (List SourceDocument)
  fs : FileSystem
  tracker : CostBreakdown
  daily_budget : ℚ

deriving instance DecidableEq for Except

/-- Result of one `TavilyClient.search` call: the returned value or raised
error, the event trace in source order, and the final cache and ledger states. -/
structure TavilyRun where
  result : Except DFError TavilySearchResult
  events : List ApiEvent
  fs : FileSystem
  tracker : CostBreakdown
  deriving DecidableEq

/-- The payload built by `TavilyClient.search` lines 56–70: the requested
maximum is `max_results or settings...max_results` capped at 100, and a
domain list is attached only when `passed or settings-default` is non-empty. -/
def tavily_payload (env : TavilyEnv) (query : String) (max_results : Option ℕ)
    (include_domains exclude_domains : Option (List String)) : TavilyPayload :=
  let requested_max := pyOrNat max_results env.settings.max_results
  let inc := pyOrList include_domains env.settings.include_domains
  let exc := pyOrList exclude_domains env.settings.exclude_domains
  { api_key := env.api_key
    query := query
    max_results := min requested_max 100
    search_depth := env.settings.search_depth
    include_domains := if inc = [] then none else some inc
    exclude_domains := if exc = [] then none else some exc }

/-- `TavilyClient.search`, step by step in source order:
1. `await self._rate.acquire()` — admission first;
2. build the cache key and probe the cache; on a hit, rebuild the documents
   from the cached payload and return (no further effect);
3. raise `TavilyAPIError` when the api key is missing/blank;
4. POST the payload once (no retry loop); wrap `httpx.RequestError` as
   `TavilyAPIError("HTTP error: ...")` and `httpx.HTTPStatusError` as
   `TavilyAPIError("Bad status: <code>...")` (the source then appends detail
   extracted from the response body, elided here as `detail`);
5. convert the results and persist them to the cache — before any budget check;
6. with the flat estimate `0.0`, raise `CostLimitExceededError` when
   `within_budget` fails, otherwise commit `add_cost("tavily", 0.0)` and
   return the result. -/
def tavily_search (env : TavilyEnv)
    (network : TavilyPayload → Except HttpError (List TavilyItem))
    (detail : String)
    (query : String) (max_results : Option ℕ)
    (include_domains exclude_domains : Option (List String)) : TavilyRun :=
  let cache_key := tavily_cache_key env.hashSeed query max_results
    env.settings.max_results include_domains exclude_domains
  let events₀ := [ApiEvent.rateAcquire, ApiEvent.cacheGet "tavily" cache_key]
  match APICache.get env.digest env.loadsDocs env.fs cacheBaseDir "tavily" cache_key with
  | some documents =>
    { result := .ok ⟨query, documents, documents.length⟩
      events := events₀, fs := env.fs, tracker := env.tracker }
  | none =>
    if env.api_key = "" ∨ pyStrip env.api_key = "" then
      { result := .error (.tavilyAPIError
          "Tavily API key is missing or empty. Please check your .env file and config.yaml")
        events := events₀, fs := env.fs, tracker := env.tracker }
    else
      let payload := tavily_payload env query max_results include_domains exclude_domains
      let events₁ := events₀ ++ [ApiEvent.networkCall]
      match network payload with
      | .error (.requestError msg) =>
        { result := .error (.tavilyAPIError ("HTTP error: " ++ msg))
          events := events₁, fs := env.fs, tracker := env.tracker }
      | .error (.statusError code) =>
        { result := .error (.tavilyAPIError ("Bad status: " ++ toString code ++ detail))
          events := events₁, fs := env.fs, tracker := env.tracker }
      | .ok items =>
        let documents := items.map itemToDocument
        let fs' := APICache.set env.digest env.dumpsDocs env.fs cacheBaseDir
          "tavily" cache_key documents
        let events₂ := events₁ ++ [ApiEvent.cacheSet "tavily" cache_key]
        let cost_estimate : ℚ := 0
        if ¬ within_budget env.tracker env.daily_budget cost_estimate then
          { result := .error (.costLimitExceeded "Daily budget exceeded")
            events := events₂, fs := fs', tracker := env.tracker }
        else
          { result := .ok ⟨query, documents, documents.length⟩
            events := events₂ ++ [ApiEvent.ledgerAdd "tavily" cost_estimate]
            fs := fs'
            tracker := add_cost env.tracker "tavily" cost_estimate }

/-! ## OpenAI analysis client (`dataforge/api/openai_client.py`) -/

/-- The cost table of `OpenAIClient._estimate_cost_usd` (USD per 1K tokens);
an unknown model falls back to the `gpt-3.5-turbo` row. -/
def pricing (model : String) : ℚ × ℚ :=
  if model = "gpt-4-turbo-preview" then (1 / 100, 3 / 100)
  else if model = "gpt-3.5-turbo" then (1 / 2000, 3 / 2000)
  else (1 / 2000, 3 / 2000)

/-- `OpenAIClient._estimate_cost_usd`:
`(in_tokens / 1000) * in_rate + (out_tokens / 1000) * out_rate`. -/
def estimate_cost_usd (model : String) (in_tokens out_tokens : ℕ) : ℚ :=
  let rates := pricing model
  (in_tokens / 1000 : ℚ) * rates.1 + (out_tokens / 1000 : ℚ) * rates.2

/-- `BaseAPIClient.check_cost_budget` (`dataforge/api/base.py`): raises
`CostLimitExceededError` when the estimate strictly exceeds
`settings.api.cost_limits.per_request_max`. -/
def check_cost_budget (estimated_cost_usd per_request_max : ℚ) : Bool :=
  estimated_cost_usd > per_request_max

/-- What `OpenAIClient.analyze_text` extracts from a successful response:
`choices[0].message.content` (defaulted to `"\x7b\x7d"` upstream) and the
`usage` token counts, read with `int(usage.get(..., 0))`. -/
structure OpenAIData where
  content : String
  prompt_tokens : ℕ
  completion_tokens : ℕ
  deriving DecidableEq

/-- `GPTAnalysisResult` as far as the claims observe it: the token counts,
the estimated cost and the raw response content. (The source additionally
JSON-parses `content` into summary/key-points/topics/scores fields; that
pure unpacking is carried opaquely by `content` here, no claim inspects it.) -/
structure GPTAnalysisResult where
  input_tokens : ℕ
  output_tokens : ℕ
  total_cost_usd : ℚ
  content : String
  deriving DecidableEq

/-- The environment of one `OpenAIClient.analyze_text` call. The transport
behaviour is a function of the model name the payload carries, because the
fallback path re-posts the same payload with `payload["model"]` replaced by
the fallback model. -/
structure OpenAIEnv where
  model : String
  fallback_model : String
  temperature : ℚ
  max_tokens : ℕ
  api_key : String
  hashSeed : ℕ
  digest : String → String
  dumpsResult : GPTAnalysisResult → Option String
  loadsResult : String → Option GPTAnalysisResult
  fs : FileSystem
  tracker : CostBreakdown
  daily_budget : ℚ
  per_request_max : ℚ

/-- Result of one `OpenAIClient.analyze_text` call. -/
structure OpenAIRun where
  result : Except DFError GPTAnalysisResult
  events : List ApiEvent
  fs : FileSystem
  tracker : CostBreakdown
  deriving DecidableEq

/-- The commit phase of `analyze_text` (lines 95–114), shared by the direct
and fallback response paths: estimate the cost for the model actually used,
apply the per-request ceiling then the daily-budget gate (each aborting with
`CostLimitExceededError` before any mutation), then `add_cost("openai", ...)`
followed by the cache write, and return the result. -/
def openai_commit (env : OpenAIEnv) (cache_key : String)
    (events : List ApiEvent) (payload_model : String) (data : OpenAIData) :
    OpenAIRun :=
  let input_tokens := data.prompt_tokens
  let output_tokens := data.completion_tokens
  let total_cost := estimate_cost_usd payload_model input_tokens output_tokens
  if check_cost_budget total_cost env.per_request_max then
    { result := .error (.costLimitExceeded "Estimated cost exceeds per-request limit")
      events := events, fs := env.fs, tracker := env.tracker }
  else if ¬ within_budget env.tracker env.daily_budget total_cost then
    { result := .error (.costLimitExceeded "Daily budget exceeded")
      events := events, fs := env.fs, tracker := env.tracker }
  else
    let result : GPTAnalysisResult :=
      { input_tokens := input_tokens
        output_tokens := output_tokens
        total_cost_usd := total_cost
        content := data.content }
    { result := .ok result
      events := events ++
        [ApiEvent.ledgerAdd "openai" total_cost, ApiEvent.cacheSet "openai_analyze" cache_key]
      fs := APICache.set env.digest env.dumpsResult env.fs cacheBaseDir
        "openai_analyze" cache_key result
      tracker := add_cost env.tracker "openai" total_cost }

/-- `OpenAIClient.analyze_text`, step by step in source order:
1. `await self._rate.acquire()` — admission first;
2. build the cache key (with the salted `hash(text)`) and probe the cache;
   on a hit, rebuild the result from the cached payload and return;
3. POST once with the primary model; wrap `httpx.RequestError` as
   `OpenAIAPIError("HTTP error: ...")`; on `httpx.HTTPStatusError` with
   status 429/500/503 re-post once with the fallback model, and let any
   error of that second call escape unwrapped (its `raise_for_status()` is
   outside the `try`); wrap any other status as `OpenAIAPIError("Bad status: ...")`;
4. run the commit phase (`openai_commit`). -/
def analyze_text (env : OpenAIEnv)
    (network : String → Except HttpError OpenAIData)
    (text : String) : OpenAIRun :=
  let cache_key := openai_cache_key env.hashSeed env.model env.temperature
    env.max_tokens text
  let events₀ := [ApiEvent.rateAcquire, ApiEvent.cacheGet "openai_analyze" cache_key]
  match APICache.get env.digest env.loadsResult env.fs cacheBaseDir
      "openai_analyze" cache_key with
  | some cached =>
    { result := .ok cached, events := events₀, fs := env.fs, tracker := env.tracker }
  | none =>
    match network env.model with
    | .ok data =>
      openai_commit env cache_key (events₀ ++ [ApiEvent.networkCall]) env.model data
    | .error (.requestError msg) =>
      { result := .error (.openaiAPIError ("HTTP error: " ++ msg))
        events := events₀ ++ [ApiEvent.networkCall], fs := env.fs, tracker := env.tracker }
    | .error (.statusError code) =>
      if code = 429 ∨ code = 500 ∨ code = 503 then
        match network env.fallback_model with
        | .ok data =>
          openai_commit env cache_key
            (events₀ ++ [ApiEvent.networkCall, ApiEvent.networkCall])
            env.fallback_model data
        | .error e =>
          { result := .error (.rawHttpError e)
            events := events₀ ++ [ApiEvent.networkCall, ApiEvent.networkCall]
            fs := env.fs, tracker := env.tracker }
      else
        { result := .error (.openaiAPIError ("Bad status: " ++ toString code))
          events := events₀ ++ [ApiEvent.networkCall], fs := env.fs, tracker := env.tracker }

/-! ## Concrete example environments

Fixed instances used to evaluate the embeddings on closed inputs. The digest
and codec collaborators are instantiated with trivial functions that satisfy
the round-trip contract at the payloads involved (standing for
`hashlib.sha256` and `json.dumps`/`json.loads` succeeding on them). -/

/-- A Tavily environment whose cache holds the entry every key maps to (the
constant digest sends every fingerprint to the one stored file). -/
def tavilyHitEnv : TavilyEnv :=
  { settings := ⟨5, "basic", [], []⟩
    api_key := "k"
    hashSeed := 0
    digest := fun _ => "d"
    dumpsDocs := fun _ => some "docs"
    loadsDocs := fun _ => some []
    fs := [(".dataforge_cache/tavily/d.json", "docs")]
    tracker := ⟨0, 0⟩
    daily_budget := 10 }

/-- A Tavily environment with an empty cache whose ledger already exceeds the
daily budget (spend 2 against a budget of 1). -/
def tavilyOverBudgetEnv : TavilyEnv :=
  { settings := ⟨5, "basic", [], []⟩
    api_key := "k"
    hashSeed := 0
    digest := fun _ => "d"
    dumpsDocs := fun _ => some "docs"
    loadsDocs := fun _ => none
    fs := []
    tracker := ⟨2, 0⟩
    daily_budget := 1 }

/-- An OpenAI environment whose cache holds the entry every key maps to. -/
def openaiHitEnv : OpenAIEnv :=
  { model := "gpt-3.5-turbo"
    fallback_model := "gpt-3.5-turbo"
    temperature := 0
    max_tokens := 10
    api_key := "k"
    hashSeed := 0
    digest := fun _ => "d"
    dumpsResult := fun _ => some "r"
    loadsResult := fun _ => some ⟨0, 0, 0, ""⟩
    fs := [(".dataforge_cache/openai_analyze/d.json", "r")]
    tracker := ⟨0, 0⟩
    daily_budget := 10
    per_request_max := 1 }

/-- An OpenAI environment with an empty cache whose ledger already exceeds
the daily budget (spend 0 against a budget of -1, so any estimate fails). -/
def openaiOverBudgetEnv : OpenAIEnv :=
  { model := "gpt-3.5-turbo"
    fallback_model := "gpt-3.5-turbo"
    temperature := 0
    max_tokens := 10
    api_key := "k"
    hashSeed := 0
    digest := fun _ => "d"
    dumpsResult := fun _ => some "r"
    loadsResult := fun _ => none
    fs := []
    tracker := ⟨0, 0⟩
    daily_budget := -1
    per_request_max := 1 }

/-! # Theorems -/

/-! ## Token bucket (C5, C10) -/

theorem refill_le_capacity (cap rate t e : ℚ) : refill cap rate t e ≤ cap :=
  min_le_left _ _

theorem refill_nonneg (cap rate t e : ℚ) (hcap : 0 ≤ cap) (hrate : 0 ≤ rate)
    (ht : 0 ≤ t) (he : 0 ≤ e) : 0 ≤ refill cap rate t e := by
  have h60 : (0 : ℚ) ≤ rate / 60 := by positivity
  exact le_min hcap (add_nonneg ht (mul_nonneg he h60))

theorem acquireStep_invariant (cap rate t e r : ℚ) (hcap : 0 ≤ cap)
    (hrate : 0 ≤ rate) (ht₀ : 0 ≤ t) (_ht₁ : t ≤ cap) (he : 0 ≤ e) (hr : 0 ≤ r) :
    0 ≤ acquireStep cap rate t e r ∧ acquireStep cap rate t e r ≤ cap := by
  unfold acquireStep
  have h₁ : refill cap rate t e ≤ cap := refill_le_capacity cap rate t e
  have h₂ : 0 ≤ refill cap rate t e := refill_nonneg cap rate t e hcap hrate ht₀ he
  by_cases hcase : r ≤ refill cap rate t e
  · rw [if_pos hcase]
    exact ⟨by linarith, by linarith⟩
  · rw [if_neg hcase]
    exact ⟨h₂, h₁⟩

/-- C5: for every sequence of `acquire`-loop iterations — each refilling with a
nonnegative elapsed time and debiting a nonnegative requested amount when
available — the token count stays within `[0, capacity]`: a refill never
pushes it above capacity and a debit never drives it negative. (In the
repository every `acquire` call uses the default request of `1.0` and
`capacity = max(1, rate_per_minute) ≥ 1`, so the hypotheses hold at every
call site; elapsed monotonic time is nonnegative by definition.) -/
theorem token_bucket_invariant (cap rate t₀ : ℚ) (steps : List (ℚ × ℚ))
    (hcap : 0 ≤ cap) (hrate : 0 ≤ rate) (h₀ : 0 ≤ t₀) (h₁ : t₀ ≤ cap)
    (hsteps : ∀ p ∈ steps, 0 ≤ p.1 ∧ 0 ≤ p.2) :
    0 ≤ runAcquires cap rate t₀ steps ∧ runAcquires cap rate t₀ steps ≤ cap := by
  induction steps generalizing t₀ with
  | nil => exact ⟨h₀, h₁⟩
  | cons s rest ih =>
    have hs := hsteps s (List.mem_cons_self s rest)
    have hstep := acquireStep_invariant cap rate t₀ s.1 s.2 hcap hrate h₀ h₁ hs.1 hs.2
    have hfold : runAcquires cap rate t₀ (s :: rest)
        = runAcquires cap rate (acquireStep cap rate t₀ s.1 s.2) rest := by
      simp [runAcquires]
    rw [hfold]
    exact ih _ hstep.1 hstep.2 (fun p hp => hsteps p (List.mem_cons_of_mem s hp))

/-- Witness for C5: a full bucket of capacity 1 at 60 tokens per minute,
debited once immediately and once after a second has elapsed. -/
theorem token_bucket_invariant_witness :
    0 ≤ runAcquires 1 60 1 [(0, 1), (1, 1)]
      ∧ runAcquires 1 60 1 [(0, 1), (1, 1)] ≤ 1 :=
  token_bucket_invariant 1 60 1 [(0, 1), (1, 1)]
    (by norm_num) (by norm_num) (by norm_num) (by norm_num) (by decide)

/-- C10: with a positive rate, (a) a request strictly above the capacity can
never be admitted — every refill caps the tokens at `capacity`, so the
availability check fails at every iteration and `acquire` suspends forever —
and (b) a request of at most the capacity is admitted after at most two
iterations whenever the second iteration's elapsed time is at least the
sleep the source computes for the shortfall (the task sleeps exactly that
long, and the monotonic clock elapses at least the slept duration). -/
theorem acquire_starvation_and_termination (cap rate req : ℚ) (hrate : 0 < rate) :
    (cap < req → ∀ (es : List ℚ) (t : ℚ), t ≤ cap →
      acquireRun cap rate req es t = none) ∧
    (req ≤ cap → ∀ t e₀ e₁ : ℚ,
      acquireSleep rate (refill cap rate t e₀) req ≤ e₁ →
      (acquireRun cap rate req [e₀, e₁] t).isSome = true) := by
  constructor
  · intro hreq es
    induction es with
    | nil => intro t _; rfl
    | cons e es ih =>
      intro t _
      have hle : refill cap rate t e ≤ cap := refill_le_capacity cap rate t e
      have hfail : ¬ req ≤ refill cap rate t e := by linarith
      simp only [acquireRun, if_neg hfail]
      exact ih (refill cap rate t e) hle
  · intro hreq t e₀ e₁ hsleep
    have hrpos : 0 < rate / 60 := by positivity
    by_cases h₁ : req ≤ refill cap rate t e₀
    · simp [acquireRun, if_pos h₁]
    · have hneed : req - refill cap rate t e₀ ≤ e₁ * (rate / 60) := by
        rw [acquireSleep, div_le_iff₀ hrpos] at hsleep
        linarith
      have h₂ : req ≤ refill cap rate (refill cap rate t e₀) e₁ := by
        rw [refill]
        exact le_min hreq (by linarith)
      simp [acquireRun, if_neg h₁, if_pos h₂]

/-- Witness for C10: a bucket of capacity 1 starves a request for 2 tokens
through any iterations, and admits a request for 1 token once the computed
sleep of one second has elapsed. -/
theorem acquire_starvation_and_termination_witness :
    acquireRun 1 60 2 [5, 5, 5] 1 = none
      ∧ (acquireRun 1 60 1 [0, 1] 0).isSome = true :=
  ⟨(acquire_starvation_and_termination 1 60 2 (by norm_num)).1 (by norm_num) [5, 5, 5] 1
      (by norm_num),
   (acquire_starvation_and_termination 1 60 1 (by norm_num)).2 (by norm_num) 0 0 1
      (by norm_num [acquireSleep, refill])⟩

/-! ## Cost ledger (C6, C7) -/

theorem runCostOps_total (ops : List CostOp) : ∀ c : CostBreakdown,
    (runCostOps c ops).total = c.total + recognizedSum ops := by
  induction ops with
  | nil => intro c; simp [runCostOps, recognizedSum]
  | cons op rest ih =>
    intro c
    have hstep : runCostOps c (op :: rest) = runCostOps (op.apply c) rest := by
      simp [runCostOps]
    rw [hstep, ih]
    cases op with
    | add s a =>
      by_cases h₁ : s = "tavily"
      · subst h₁
        simp [CostOp.apply, add_cost, recognizedSum, CostBreakdown.total]
        ring
      · by_cases h₂ : s = "openai"
        · subst h₂
          simp [CostOp.apply, add_cost, recognizedSum, CostBreakdown.total, h₁]
          ring
        · simp [CostOp.apply, add_cost, recognizedSum, CostBreakdown.total, h₁, h₂]
    | getTotals => simp [CostOp.apply, recognizedSum]
    | checkBudget x => simp [CostOp.apply, recognizedSum]

/-- C6: starting from the zero ledger, after any sequence of `CostTracker`
operations the total equals the sum of the amounts committed for the
recognized services (`"tavily"` and `"openai"`); and `add_cost` with any
unrecognized service name is a silent no-op leaving every total unchanged. -/
theorem ledger_additivity (ops : List CostOp) :
    (runCostOps CostBreakdown.init ops).total = recognizedSum ops ∧
    ∀ (c : CostBreakdown) (s : String) (a : ℚ),
      s ≠ "tavily" → s ≠ "openai" → add_cost c s a = c := by
  constructor
  · have h := runCostOps_total ops CostBreakdown.init
    simpa [CostBreakdown.init, CostBreakdown.total] using h
  · intro c s a h₁ h₂
    simp [add_cost, h₁, h₂]

/-- Witness for C6: two recognized commits, one unrecognized one. -/
theorem ledger_additivity_witness :
    (runCostOps CostBreakdown.init
        [CostOp.add "tavily" 2, CostOp.add "mystery" 5, CostOp.add "openai" 1]).total
      = recognizedSum [CostOp.add "tavily" 2, CostOp.add "mystery" 5, CostOp.add "openai" 1]
    ∧ add_cost ⟨3, 4⟩ "mystery" 5 = ⟨3, 4⟩ :=
  ⟨(ledger_additivity _).1,
   (ledger_additivity []).2 ⟨3, 4⟩ "mystery" 5 (by decide) (by decide)⟩

theorem runCostOps_nonneg (ops : List CostOp) : ∀ c : CostBreakdown,
    (∀ op ∈ ops, 0 ≤ op.amount) → 0 ≤ c.tavily_usd → 0 ≤ c.openai_usd →
    0 ≤ (runCostOps c ops).tavily_usd ∧ 0 ≤ (runCostOps c ops).openai_usd := by
  induction ops with
  | nil => intro c _ h₁ h₂; exact ⟨h₁, h₂⟩
  | cons op rest ih =>
    intro c h h₁ h₂
    have hop : 0 ≤ op.amount := h op (List.mem_cons_self op rest)
    have hstep : runCostOps c (op :: rest) = runCostOps (op.apply c) rest := by
      simp [runCostOps]
    rw [hstep]
    refine ih _ (fun o ho => h o (List.mem_cons_of_mem op ho)) ?_ ?_
    · cases op with
      | add s a =>
        simp only [CostOp.amount] at hop
        simp only [CostOp.apply, add_cost]
        by_cases hs : s = "tavily"
        · simp only [if_pos hs]
          exact add_nonneg h₁ hop
        · by_cases hs' : s = "openai" <;> simp [hs, hs'] <;> assumption
      | getTotals => exact h₁
      | checkBudget x => exact h₁
    · cases op with
      | add s a =>
        simp only [CostOp.amount] at hop
        simp only [CostOp.apply, add_cost]
        by_cases hs : s = "tavily"
        · simp only [if_pos hs]
          exact h₂
        · by_cases hs' : s = "openai"
          · simp only [if_neg hs, if_pos hs']
            exact add_nonneg h₂ hop
          · simp [hs, hs']
            exact h₂
      | getTotals => exact h₂
      | checkBudget x => exact h₂

/-- C7: starting from the zero ledger, after any sequence of `CostTracker`
operations whose committed amounts are all nonnegative, every per-service
total is nonnegative. (The repository commits only nonnegative amounts:
`TavilyClient.search` commits the flat estimate `0.0` and
`OpenAIClient.analyze_text` commits `_estimate_cost_usd`, which is
nonnegative for every model and token count — see
`estimate_cost_usd_nonneg`.) -/
theorem ledger_totals_nonneg (ops : List CostOp)
    (h : ∀ op ∈ ops, 0 ≤ op.amount) :
    0 ≤ (runCostOps CostBreakdown.init ops).tavily_usd ∧
    0 ≤ (runCostOps CostBreakdown.init ops).openai_usd :=
  runCostOps_nonneg ops CostBreakdown.init h le_rfl le_rfl

/-- Witness for C7: a recognized commit, a read and an unrecognized commit. -/
theorem ledger_totals_nonneg_witness :
    0 ≤ (runCostOps CostBreakdown.init
        [CostOp.add "tavily" (1/2), CostOp.getTotals, CostOp.add "other" 3]).tavily_usd ∧
    0 ≤ (runCostOps CostBreakdown.init
        [CostOp.add "tavily" (1/2), CostOp.getTotals, CostOp.add "other" 3]).openai_usd :=
  ledger_totals_nonneg _ (by intro op hop; fin_cases hop <;> norm_num [CostOp.amount])

theorem pricing_nonneg (model : String) :
    0 ≤ (pricing model).1 ∧ 0 ≤ (pricing model).2 := by
  unfold pricing
  split_ifs <;> norm_num

/-- Every cost estimate `OpenAIClient._estimate_cost_usd` produces is
nonnegative, so every amount the clients commit satisfies the hypothesis of
`ledger_totals_nonneg`. -/
theorem estimate_cost_usd_nonneg (model : String) (i o : ℕ) :
    0 ≤ estimate_cost_usd model i o := by
  have h := pricing_nonneg model
  have h₁ : (0 : ℚ) ≤ (i : ℚ) / 1000 := by positivity
  have h₂ : (0 : ℚ) ≤ (o : ℚ) / 1000 := by positivity
  show 0 ≤ (i : ℚ) / 1000 * (pricing model).1 + (o : ℚ) / 1000 * (pricing model).2
  exact add_nonneg (mul_nonneg h₁ h.1) (mul_nonneg h₂ h.2)

/-! ## Retry helper (C8) -/

theorem retryLoop_error_step {ε α : Type} (op : ℕ → Except ε α) (r : ε → Bool)
    (i rem : ℕ) (e : ε) (hop : op i = .error e) (hr : r e = true) :
    retryLoop op r i (rem + 1 + 1) = retryLoop op r (i + 1) (rem + 1) := by
  simp [retryLoop, hop, hr]

theorem retryLoop_error_last {ε α : Type} (op : ℕ → Except ε α) (r : ε → Bool)
    (i : ℕ) (e : ε) (hop : op i = .error e) (hr : r e = true) :
    retryLoop op r i 1 = some (.error e, i + 1) := by
  simp [retryLoop, hop, hr]

/-- C8: an operation that raises a retryable error on every invocation is,
under `with_retries` with `attempts = 3`, invoked exactly 3 times, and the
error finally surfaced is the very error the operation raised on its last
invocation — re-raised verbatim, not swallowed or rewrapped. -/
theorem retry_exhaustion {ε α : Type} (op : ℕ → Except ε α) (retry_on : ε → Bool)
    (errs : ℕ → ε) (hop : ∀ n, op n = .error (errs n))
    (hretry : ∀ n, retry_on (errs n) = true) :
    with_retries op 3 retry_on = some (.error (errs 2), 3) := by
  have h₀ : retryLoop op retry_on 0 (1 + 1 + 1) = retryLoop op retry_on 1 (1 + 1) :=
    retryLoop_error_step op retry_on 0 1 (errs 0) (hop 0) (hretry 0)
  have h₁ : retryLoop op retry_on 1 (0 + 1 + 1) = retryLoop op retry_on 2 (0 + 1) :=
    retryLoop_error_step op retry_on 1 0 (errs 1) (hop 1) (hretry 1)
  have h₂ : retryLoop op retry_on 2 1 = some (.error (errs 2), 3) :=
    retryLoop_error_last op retry_on 2 (errs 2) (hop 2) (hretry 2)
  show retryLoop op retry_on 0 3 = some (.error (errs 2), 3)
  norm_num at h₀ h₁
  rw [h₀, h₁, h₂]

/-- Witness for C8: an operation that always raises error `7`, with every
error retryable, surfaces error `7` after exactly 3 invocations. -/
theorem retry_exhaustion_witness :
    with_retries (fun _ => (Except.error 7 : Except ℕ ℕ)) 3 (fun _ => true)
      = some (.error 7, 3) :=
  retry_exhaustion (fun _ => .error 7) (fun _ => true) (fun _ => 7)
    (fun _ => rfl) (fun _ => rfl)

/-! ## Response cache (C9) -/

/-- C9: for every namespace, key and payload that serializes (`dumps v`
succeeds and `loads` inverts it — exactly the payloads the `json` module
round-trips), `APICache.set` followed by `APICache.get` on the same
namespace and key, with no intervening write, returns the stored value:
both calls derive the same file path from the key, the write puts the
serialized payload there, and the read deserializes it back. -/
theorem cache_round_trip {α : Type} (digest : String → String)
    (dumps : α → Option String) (loads : String → Option α)
    (fs : FileSystem) (base ns key : String) (v : α) (s : String)
    (hdumps : dumps v = some s) (hloads : loads s = some v) :
    APICache.get digest loads (APICache.set digest dumps fs base ns key v)
      base ns key = some v := by
  simp [APICache.get, APICache.set, hdumps, fsWrite, fsRead, hloads]

/-- Witness for C9: storing `42` under namespace `"ns"`, key `"k"` with a
codec that round-trips it, then reading it back. -/
theorem cache_round_trip_witness :
    APICache.get (fun s => s) (fun s => if s = "42" then some 42 else none)
      (APICache.set (fun s => s) (fun n : ℕ => some (toString n)) [] "b" "ns" "k" 42)
      "b" "ns" "k" = some 42 :=
  cache_round_trip (fun s => s) (fun n => some (toString n))
    (fun s => if s = "42" then some 42 else none)
    [] "b" "ns" "k" 42 "42" rfl (by decide)

/-! ## Client orchestration (C1, C2, C3) -/

/-- C1 as stated is false on the code: on a cache hit `TavilyClient.search`
does return the cached result with no network call, but the rate limiter has
already been debited — `await self._rate.acquire()` (line 35) runs before
the cache probe (lines 37–39), so the admission debit precedes the cache
check. Concretely, a request that hits the cache produces the trace
`[rateAcquire, cacheGet]` with the debit first. -/
theorem cache_hit_admission_counterexample :
    (tavily_search tavilyHitEnv (fun _ => .error (.requestError "down")) "" "q"
        none none none).result = .ok ⟨"q", [], 0⟩ ∧
    (tavily_search tavilyHitEnv (fun _ => .error (.requestError "down")) "" "q"
        none none none).events
      = [ApiEvent.rateAcquire, ApiEvent.cacheGet "tavily" "q=q|max=5|inc=|exc="] := by
  decide

/-- C1 amended: for every request whose fingerprint key is already present in
the cache, the client (`TavilyClient.search` / `OpenAIClient.analyze_text`)
returns the cached result as its final answer with no network call, no cache
write and no ledger commit — but only after rate-limiter admission: the
limiter is debited first, because `acquire()` runs before the cache check in
both clients. -/
theorem cache_hit_terminal_after_admission
    (envT : TavilyEnv) (netT : TavilyPayload → Except HttpError (List TavilyItem))
    (detail q : String) (mr : Option ℕ) (inc exc : Option (List String))
    (docs : List SourceDocument)
    (hT : APICache.get envT.digest envT.loadsDocs envT.fs cacheBaseDir "tavily"
        (tavily_cache_key envT.hashSeed q mr envT.settings.max_results inc exc)
        = some docs)
    (envO : OpenAIEnv) (netO : String → Except HttpError OpenAIData)
    (text : String) (r : GPTAnalysisResult)
    (hO : APICache.get envO.digest envO.loadsResult envO.fs cacheBaseDir "openai_analyze"
        (openai_cache_key envO.hashSeed envO.model envO.temperature envO.max_tokens text)
        = some r) :
    tavily_search envT netT detail q mr inc exc
      = { result := .ok ⟨q, docs, docs.length⟩
          events := [ApiEvent.rateAcquire, ApiEvent.cacheGet "tavily"
            (tavily_cache_key envT.hashSeed q mr envT.settings.max_results inc exc)]
          fs := envT.fs
          tracker := envT.tracker } ∧
    analyze_text envO netO text
      = { result := .ok r
          events := [ApiEvent.rateAcquire, ApiEvent.cacheGet "openai_analyze"
            (openai_cache_key envO.hashSeed envO.model envO.temperature envO.max_tokens text)]
          fs := envO.fs
          tracker := envO.tracker } := by
  constructor
  · simp only [tavily_search]
    rw [hT]
  · simp only [analyze_text]
    rw [hO]

/-- Witness for the amended C1: cache hits in both clients. -/
theorem cache_hit_terminal_after_admission_witness :
    tavily_search tavilyHitEnv (fun _ => .error (.requestError "down")) "" "q2"
        none none none
      = { result := .ok ⟨"q2", [], 0⟩
          events := [ApiEvent.rateAcquire, ApiEvent.cacheGet "tavily"
            (tavily_cache_key 0 "q2" none 5 none none)]
          fs := tavilyHitEnv.fs
          tracker := tavilyHitEnv.tracker } ∧
    analyze_text openaiHitEnv (fun _ => .error (.requestError "down")) "t"
      = { result := .ok ⟨0, 0, 0, ""⟩
          events := [ApiEvent.rateAcquire, ApiEvent.cacheGet "openai_analyze"
            (openai_cache_key 0 "gpt-3.5-turbo" 0 10 "t")]
          fs := openaiHitEnv.fs
          tracker := openaiHitEnv.tracker } :=
  cache_hit_terminal_after_admission tavilyHitEnv _ "" "q2" none none none []
    (by decide) openaiHitEnv _ "t" ⟨0, 0, 0, ""⟩ (by decide)

/-- C2 as stated is false on the code: `TavilyClient.search` persists the
response to the cache (line 127) before its budget gate (line 138), so a
request rejected by the budget check leaves a fresh cache entry behind.
Concretely: with the ledger at $2 against a $1 daily budget, the request
fails with the budget error, the ledger is untouched, yet the cache gained
the entry (the filesystem changed from empty to one file). -/
theorem budget_gate_cache_write_counterexample :
    (tavily_search tavilyOverBudgetEnv (fun _ => .ok []) "" "q" none none none).result
      = .error (.costLimitExceeded "Daily budget exceeded") ∧
    (tavily_search tavilyOverBudgetEnv (fun _ => .ok []) "" "q" none none none).tracker
      = tavilyOverBudgetEnv.tracker ∧
    (tavily_search tavilyOverBudgetEnv (fun _ => .ok []) "" "q" none none none).fs
      = [(".dataforge_cache/tavily/d.json", "docs")] ∧
    tavilyOverBudgetEnv.fs = [] := by
  have hkey : pyStrip "k" = "k" := by decide
  have hbud : within_budget ⟨2, 0⟩ 1 0 = false := by
    simp only [within_budget]
    exact decide_eq_false (by norm_num [CostBreakdown.total])
  refine ⟨?_, ?_, ?_, rfl⟩ <;>
    simp [tavily_search, APICache.get, APICache.key_to_path, fsRead, APICache.set,
      fsWrite, hkey, hbud, tavilyOverBudgetEnv, cacheBaseDir]

/-- C2 amended: a request whose estimated cost fails the budget gate
terminates with the budget-exceeded error and performs zero ledger mutation
in both clients; the OpenAI client also performs zero cache write (its gate
runs before its commit phase), but the Tavily client has already persisted
the response to the cache before its budget gate, so a budget-rejected
Tavily request leaves exactly that cache entry written. -/
theorem budget_gate_no_ledger_mutation
    (envT : TavilyEnv) (netT : TavilyPayload → Except HttpError (List TavilyItem))
    (detail q : String) (mr : Option ℕ) (inc exc : Option (List String))
    (items : List TavilyItem)
    (hmissT : APICache.get envT.digest envT.loadsDocs envT.fs cacheBaseDir "tavily"
        (tavily_cache_key envT.hashSeed q mr envT.settings.max_results inc exc) = none)
    (hkeyT : ¬ (envT.api_key = "" ∨ pyStrip envT.api_key = ""))
    (hnetT : netT (tavily_payload envT q mr inc exc) = .ok items)
    (hbudT : within_budget envT.tracker envT.daily_budget 0 = false)
    (envO : OpenAIEnv) (netO : String → Except HttpError OpenAIData)
    (text : String) (data : OpenAIData)
    (hmissO : APICache.get envO.digest envO.loadsResult envO.fs cacheBaseDir "openai_analyze"
        (openai_cache_key envO.hashSeed envO.model envO.temperature envO.max_tokens text)
        = none)
    (hnetO : netO envO.model = .ok data)
    (hbudO : check_cost_budget
          (estimate_cost_usd envO.model data.prompt_tokens data.completion_tokens)
          envO.per_request_max = true
        ∨ within_budget envO.tracker envO.daily_budget
          (estimate_cost_usd envO.model data.prompt_tokens data.completion_tokens) = false) :
    ((tavily_search envT netT detail q mr inc exc).result
        = .error (.costLimitExceeded "Daily budget exceeded") ∧
      (tavily_search envT netT detail q mr inc exc).tracker = envT.tracker ∧
      (tavily_search envT netT detail q mr inc exc).fs
        = APICache.set envT.digest envT.dumpsDocs envT.fs cacheBaseDir "tavily"
            (tavily_cache_key envT.hashSeed q mr envT.settings.max_results inc exc)
            (items.map itemToDocument)) ∧
    ((∃ msg, (analyze_text envO netO text).result = .error (.costLimitExceeded msg)) ∧
      (analyze_text envO netO text).tracker = envO.tracker ∧
      (analyze_text envO netO text).fs = envO.fs) := by
  constructor
  · simp only [tavily_search]
    rw [hmissT]
    simp only [if_neg hkeyT, hnetT, hbudT]
    exact ⟨rfl, rfl, rfl⟩
  · simp only [analyze_text]
    rw [hmissO]
    simp only [hnetO, openai_commit]
    rcases hbudO with hb | hb
    · simp only [hb, if_true]
      exact ⟨⟨_, rfl⟩, by simp, by simp⟩
    · by_cases hc : check_cost_budget
          (estimate_cost_usd envO.model data.prompt_tokens data.completion_tokens)
          envO.per_request_max = true
      · simp only [hc, if_true]
        exact ⟨⟨_, rfl⟩, by simp, by simp⟩
      · simp only [Bool.not_eq_true] at hc
        simp only [hc, hb]
        exact ⟨⟨_, rfl⟩, by simp, by simp⟩

/-- Witness for the amended C2: the Tavily client over budget, the OpenAI
client with a negative daily budget. -/
theorem budget_gate_no_ledger_mutation_witness :
    ((tavily_search tavilyOverBudgetEnv (fun _ => .ok []) "" "q3" none none none).result
        = .error (.costLimitExceeded "Daily budget exceeded") ∧
      (tavily_search tavilyOverBudgetEnv (fun _ => .ok []) "" "q3" none none none).tracker
        = tavilyOverBudgetEnv.tracker ∧
      (tavily_search tavilyOverBudgetEnv (fun _ => .ok []) "" "q3" none none none).fs
        = APICache.set tavilyOverBudgetEnv.digest tavilyOverBudgetEnv.dumpsDocs
            tavilyOverBudgetEnv.fs cacheBaseDir "tavily"
            (tavily_cache_key 0 "q3" none 5 none none)
            (List.map itemToDocument [])) ∧
    ((∃ msg, (analyze_text openaiOverBudgetEnv (fun _ => .ok ⟨"", 0, 0⟩) "t").result
        = .error (.costLimitExceeded msg)) ∧
      (analyze_text openaiOverBudgetEnv (fun _ => .ok ⟨"", 0, 0⟩) "t").tracker
        = openaiOverBudgetEnv.tracker ∧
      (analyze_text openaiOverBudgetEnv (fun _ => .ok ⟨"", 0, 0⟩) "t").fs
        = openaiOverBudgetEnv.fs) :=
  budget_gate_no_ledger_mutation tavilyOverBudgetEnv _ "" "q3" none none none []
    (by decide) (by decide) rfl
    (by
      simp only [tavilyOverBudgetEnv, within_budget]
      exact decide_eq_false (by norm_num [CostBreakdown.total]))
    openaiOverBudgetEnv _ "t" ⟨"", 0, 0⟩ (by decide) rfl
    (Or.inr (by
      simp only [openaiOverBudgetEnv, within_budget]
      exact decide_eq_false (by norm_num [CostBreakdown.total, estimate_cost_usd, pricing])))

/-- C4 is false on the code: `OpenAIClient.analyze_text` builds its cache
key with `hash(text)`, CPython's per-process salted string hash, so two
distinct runs of the process (different hash seeds) build different key
strings for the identical request — here seeds 0 and 1 on the same model,
temperature, token budget and text. -/
theorem fingerprint_cross_run_counterexample :
    openai_cache_key 0 "gpt-3.5-turbo" 0 10 "t"
      ≠ openai_cache_key 1 "gpt-3.5-turbo" 0 10 "t" := by
  decide

/-- C4 amended: the Tavily fingerprint is a deterministic function of the
normalized request parameters alone, so any two executions — including two
distinct runs of the process — build character-identical key strings from
identical query and domain filters; the OpenAI fingerprint additionally
depends on the process's hash seed through `hash(text)`, so two executions
build character-identical strings exactly when their salted hashes of the
text agree — always within one process, but generally not across two runs. -/
theorem fingerprint_key_determinism
    (seed seed' : ℕ) (q : String) (mr : Option ℕ) (smax : ℕ)
    (inc exc : Option (List String)) (model : String) (temp : ℚ) (mt : ℕ)
    (text : String)
    (hhash : pyHash seed text = pyHash seed' text) :
    tavily_cache_key seed q mr smax inc exc
        = tavily_cache_key seed' q mr smax inc exc ∧
    openai_cache_key seed model temp mt text
        = openai_cache_key seed' model temp mt text := by
  constructor
  · rfl
  · simp only [openai_cache_key, hhash]

/-- Witness for the amended C4: two distinct seeds whose salted hashes of
the empty text agree (`0` and the modulus), and the Tavily key across them. -/
theorem fingerprint_key_determinism_witness :
    tavily_cache_key 0 "q" none 5 none none
        = tavily_cache_key (2 ^ 61 - 1) "q" none 5 none none ∧
    openai_cache_key 0 "m" 1 10 "" = openai_cache_key (2 ^ 61 - 1) "m" 1 10 "" :=
  fingerprint_key_determinism 0 (2 ^ 61 - 1) "q" none 5 none none "m" 1 10 ""
    (by decide)

end DataForge
